import Mathlib

/-!
Shallow embedding of the control-plane logic of `drivers/usb/gadget/android.c`
(Android composite USB gadget driver, linux 2.6.35): product-identity
selection, the registration/bind-completeness gate, the runtime
enable/disable controller, and configuration-level setup dispatch.
-/

namespace AndroidGadget

/-- A `usb_function` as seen through the configuration's function list
(`android_config_driver.functions`): its name and its `disabled` flag. -/
structure UsbFunction where
  name : String
  disabled : Bool
deriving Repr, DecidableEq

/-- An `android_usb_product`: numeric product id plus the names of the
functions the profile requires enabled (`p->functions`, `p->num_functions`
being the list length). -/
structure AndroidUsbProduct where
  product_id : Nat
  functions : List String
deriving Repr, DecidableEq

/-- The fields of `struct android_dev` read by `get_product_id`: the product
catalog (`none` models a NULL `products` pointer; `num_products` is the list
length) and the fallback default `product_id`. -/
structure AndroidDev where
  products : Option (List AndroidUsbProduct)
  product_id : Nat
deriving Repr, DecidableEq

/-- `product_has_function`: scans `p->functions` with `strcmp` and reports
whether profile `p` lists the name of function `f`. -/
def product_has_function (p : AndroidUsbProduct) (f : UsbFunction) : Bool :=
  p.functions.any (fun n => n == f.name)

/-- `product_matches_functions`: walks the configuration's function list and
rejects `p` as soon as one function's listed/disabled status agrees
(the source returns 0 when `product_has_function(p, f) == !!f->disabled`),
so `p` matches iff every function's listed status differs from its
disabled flag. -/
def product_matches_functions (known : List UsbFunction) (p : AndroidUsbProduct) : Bool :=
  known.all (fun f => product_has_function p f != f.disabled)

/-- `get_product_id`: the first profile, in catalog order, that matches the
current function states wins; a NULL or exhausted catalog falls back to the
default product id. -/
def get_product_id (known : List UsbFunction) (dev : AndroidDev) : Nat :=
  match dev.products with
  | none => dev.product_id
  | some ps =>
    match ps.find? (fun p => product_matches_functions known p) with
    | some p => p.product_id
    | none => dev.product_id

/-- The spec's reading of a profile match: for every function known to the
system, the function's enabled state equals the profile's requirement —
a function listed in the profile must be enabled, any known function not
listed must be disabled. -/
def spec_profile_matches (known : List UsbFunction) (p : AndroidUsbProduct) : Prop :=
  ∀ f ∈ known, ((!f.disabled) = true ↔ f.name ∈ p.functions)

instance (known : List UsbFunction) (p : AndroidUsbProduct) :
    Decidable (spec_profile_matches known p) := by
  unfold spec_profile_matches
  infer_instance

/-- The spec's reading of identity selection: walk the catalog in declared
order, return the first matching profile's id, and fall back to the default
id when no profile matches or the catalog is empty or absent. -/
def spec_select (known : List UsbFunction) (catalog : Option (List AndroidUsbProduct))
    (fallback : Nat) : Nat :=
  match catalog with
  | none => fallback
  | some ps =>
    match ps.find? (fun p => decide (spec_profile_matches known p)) with
    | some p => p.product_id
    | none => fallback

/-- An `android_usb_function` in the `_functions` registry: its name plus an
opaque numeric tag standing for its `bind_config` callback identity. -/
structure AFunction where
  name : String
  tag : Nat
deriving Repr, DecidableEq

/-- `get_function`: linear `strcmp` scan of the `_functions` list, returning
the first entry with the given name, or none (NULL). -/
def get_function (fs : List AFunction) (n : String) : Option AFunction :=
  fs.find? (fun f => f.name == n)

/-- `bind_functions`: walk `dev->functions` (the platform's expected name
list, `dev->num_functions` entries) in that order; for each name, look the
module up and invoke its `bind_config` callback on the configuration; a
missing name is only logged and skipped. The result lists the callback tags
invoked, in expected-list order. -/
def bind_functions (fs : List AFunction) (expected : List String) : List Nat :=
  expected.filterMap (fun n => (get_function fs n).map (fun f => f.tag))

/-- The driver state touched by registration and the completeness gate: the
`_functions` list, `_registered_function_count`, whether
`android_bind_config` has run (`dev->config` set; the source's
`dev && dev->config` test), plus two observations: how many times
`bind_functions` has been invoked and the accumulated `bind_config` calls. -/
structure GadgetState where
  functions : List AFunction
  registered_function_count : Nat
  config_attached : Bool
  binds : Nat
  bound : List Nat
deriving Repr, DecidableEq

/-- `android_register_function`: unconditionally append `f` to `_functions`
(`list_add_tail`) and bump `_registered_function_count`, then re-run the
gate — bind all functions if the configuration is attached
(`dev && dev->config`) and the updated count equals `dev->num_functions`
(the length of the expected list). The source increments the count before
testing it, which the condition reflects by comparing the count plus one. -/
def android_register_function (expected : List String) (s : GadgetState)
    (f : AFunction) : GadgetState :=
  if s.config_attached ∧ s.registered_function_count + 1 = expected.length then
    { s with functions := s.functions ++ [f],
             registered_function_count := s.registered_function_count + 1,
             binds := s.binds + 1,
             bound := s.bound ++ bind_functions (s.functions ++ [f]) expected }
  else
    { s with functions := s.functions ++ [f],
             registered_function_count := s.registered_function_count + 1 }

/-- `android_bind_config`: record the configuration attach (`dev->config = c`)
and run the gate on the current count. -/
def android_bind_config (expected : List String) (s : GadgetState) : GadgetState :=
  if s.registered_function_count = expected.length then
    { s with config_attached := true,
             binds := s.binds + 1,
             bound := s.bound ++ bind_functions s.functions expected }
  else
    { s with config_attached := true }

/-- A control-plane event: a module registration, or the framework handing
the configuration its backing device (the one `android_bind_config` call). -/
inductive Event where
  | register (f : AFunction)
  | attach
deriving Repr, DecidableEq

def step (expected : List String) (s : GadgetState) : Event → GadgetState
  | .register f => android_register_function expected s f
  | .attach => android_bind_config expected s

def run (expected : List String) (s : GadgetState) : List Event → GadgetState
  | [] => s
  | e :: tr => run expected (step expected s e) tr

/-- Driver state at load: empty registry, zero count, configuration not yet
attached, `bind_functions` never invoked. -/
def init : GadgetState := ⟨[], 0, false, 0, []⟩

def attach_count : List Event → Nat
  | [] => 0
  | Event.attach :: tr => attach_count tr + 1
  | Event.register _ :: tr => attach_count tr

/-- A `usb_ctrlrequest`: the five fields of a USB control request. Multibyte
fields are modelled as the numbers the driver compares and copies; byte
order (`cpu_to_le16`) is the transport layer's concern. -/
structure UsbCtrlrequest where
  bRequestType : Nat
  bRequest : Nat
  wValue : Nat
  wIndex : Nat
  wLength : Nat
deriving Repr, DecidableEq

/-- An interface slot of the bound configuration (`c->interface[i]`): the
`usb_function` occupying it, reduced to its optional setup handler. A
handler consumes the control request and returns an int status. -/
structure Interface where
  setup : Option (UsbCtrlrequest → Int)

/-- The errno the dispatch starts from: `ret = -EOPNOTSUPP`. -/
def EOPNOTSUPP : Int := 95

/-- The loop of `android_setup_config`: for each interface index in order,
skip it if it has no setup handler, otherwise copy the caller's request,
overwrite the copy's `wIndex` with the interface index, and invoke the
handler; a non-negative result returns immediately, a negative one replaces
`ret` and the loop continues. Alongside the returned status, the embedding
returns the list of handler invocations (interface index, request passed,
result) as an observation of which interfaces were consulted and with what. -/
def setup_loop (ctrl : UsbCtrlrequest) :
    List Interface → Nat → Int → Int × List (Nat × UsbCtrlrequest × Int)
  | [], _, ret => (ret, [])
  | intf :: rest, i, ret =>
    match intf.setup with
    | none => setup_loop ctrl rest (i + 1) ret
    | some h =>
      let tmp : UsbCtrlrequest := { ctrl with wIndex := i }
      let r := h tmp
      if 0 ≤ r then (r, [(i, tmp, r)])
      else
        let res := setup_loop ctrl rest (i + 1) r
        (res.1, (i, tmp, r) :: res.2)

/-- `android_setup_config`: run the dispatch loop over the configuration's
interfaces (indices 0 to `next_interface_id - 1`) starting from
`-EOPNOTSUPP`. The caller's request is taken by const pointer and only the
local copy `tmp_ctrl` is ever written. -/
def android_setup_config (c : List Interface) (ctrl : UsbCtrlrequest) :
    Int × List (Nat × UsbCtrlrequest × Int) :=
  setup_loop ctrl c 0 (-EOPNOTSUPP)

/-- The calls every handler-bearing interface would contribute, in interface
order: index, the request with `wIndex` rewritten to that index, and the
handler's result on it. -/
def handler_calls (ctrl : UsbCtrlrequest) :
    List Interface → Nat → List (Nat × UsbCtrlrequest × Int)
  | [], _ => []
  | intf :: rest, i =>
    match intf.setup with
    | none => handler_calls ctrl rest (i + 1)
    | some h =>
      let tmp : UsbCtrlrequest := { ctrl with wIndex := i }
      (i, tmp, h tmp) :: handler_calls ctrl rest (i + 1)

/-- Prefix of a call list up to and including the first non-negative
result. -/
def take_to_first_nonneg :
    List (Nat × UsbCtrlrequest × Int) → List (Nat × UsbCtrlrequest × Int)
  | [] => []
  | x :: xs => if 0 ≤ x.2.2 then [x] else x :: take_to_first_nonneg xs

def USB_CLASS_PER_INTERFACE : Nat := 0x00

def USB_CLASS_WIRELESS_CONTROLLER : Nat := 0xe0

/-- The composite device's descriptor fields behind `dev->cdev` that
`android_enable_function` writes: `desc.idProduct` and `desc.bDeviceClass`. -/
structure CdevDesc where
  idProduct : Nat
  bDeviceClass : Nat
deriving Repr, DecidableEq

/-- The state read and written by `android_enable_function`: the
configuration's function list, the catalog fields of `android_dev`, the
static `device_desc.idProduct`, the composite descriptor behind `dev->cdev`
(`none` before `android_bind` has run), and a counter of
`usb_composite_force_reset` invocations. -/
structure EnableState where
  functions : List UsbFunction
  dev : AndroidDev
  device_desc_idProduct : Nat
  cdev : Option CdevDesc
  resets : Nat
deriving Repr, DecidableEq

/-- `usb_function_set_enabled(f, e)` sets `f->disabled = !e`; the function
is addressed by its name in the configuration's list. -/
def usb_function_set_enabled (fs : List UsbFunction) (n : String) (e : Bool) :
    List UsbFunction :=
  fs.map (fun g => if g.name == n then { g with disabled := !e } else g)

/-- The names force-toggled by the rndis branch: usb_mass_storage, mtp and
adb (Windows does not support other interfaces while RNDIS is on). -/
def rndis_conflicts (n : String) : Prop :=
  n = "usb_mass_storage" ∨ n = "mtp" ∨ n = "adb"

instance (n : String) : Decidable (rndis_conflicts n) := by
  unfold rndis_conflicts
  infer_instance

/-- The loop of the rndis branch: `usb_function_set_enabled(func, !enable)`
on every conflicting function, i.e. `func->disabled = enable`. -/
def rndis_force (fs : List UsbFunction) (enable : Bool) : List UsbFunction :=
  fs.map (fun g => if rndis_conflicts g.name then { g with disabled := enable } else g)

/-- `android_enable_function` for the rndis-enabled build
(`CONFIG_USB_ANDROID_RNDIS` with the WCEIS variant, so the rndis-enabled
device class is wireless-controller). The caller passes a `usb_function` of
the configuration; its current flag is read through its name. On an actual
edge (`!!f->disabled != disable`) the flag is flipped; in the rndis branch
the source then writes `dev->cdev->desc.bDeviceClass` with NO NULL check, so
an rndis edge while `dev->cdev` is NULL dereferences a null pointer before
anything else takes effect — the result `none` models that fault (the call
never reaches the descriptor write or the reset; the machine has no defined
post-state). Otherwise the rndis branch applies its class write and conflict
toggles, the product id is recomputed and written (`cpu_to_le16` keeps the
low 16 bits) into the static `device_desc` and — only under the source's
`if (dev->cdev)` guard — into `cdev->desc`, and
`usb_composite_force_reset(dev->cdev)` is invoked unconditionally. The
source's two paths share their tail; the split below reflects the early
fault in the rndis arm. -/
def android_enable_function (st : EnableState) (fname : String) (enable : Bool) :
    Option EnableState :=
  match st.functions.find? (fun g => g.name == fname) with
  | none => some st
  | some f =>
    if f.disabled ≠ (!enable) then
      if fname = "rndis" then
        match st.cdev with
        | none => none
        | some c =>
          let c1 : CdevDesc := { c with bDeviceClass :=
            if enable then USB_CLASS_WIRELESS_CONTROLLER else USB_CLASS_PER_INTERFACE }
          let fs2 := rndis_force (usb_function_set_enabled st.functions fname enable) enable
          let pid := get_product_id fs2 st.dev % 65536
          some { functions := fs2, dev := st.dev, device_desc_idProduct := pid,
                 cdev := some { c1 with idProduct := pid },
                 resets := st.resets + 1 }
      else
        let fs2 := usb_function_set_enabled st.functions fname enable
        let pid := get_product_id fs2 st.dev % 65536
        some { functions := fs2, dev := st.dev, device_desc_idProduct := pid,
               cdev := st.cdev.map (fun c => { c with idProduct := pid }),
               resets := st.resets + 1 }
    else some st

lemma product_has_function_eq (p : AndroidUsbProduct) (f : UsbFunction) :
    product_has_function p f = decide (f.name ∈ p.functions) := by
  unfold product_has_function
  rcases h : decide (f.name ∈ p.functions) with _ | _
  · simp only [decide_eq_false_iff_not] at h
    simp only [List.any_eq_false, beq_iff_eq]
    intro n hn he
    exact h (he ▸ hn)
  · simp only [decide_eq_true_eq] at h
    simp only [List.any_eq_true, beq_iff_eq]
    exact ⟨f.name, h, rfl⟩

lemma product_requirement_iff (p : AndroidUsbProduct) (f : UsbFunction) :
    (product_has_function p f != f.disabled) = true ↔
      ((!f.disabled) = true ↔ f.name ∈ p.functions) := by
  rw [product_has_function_eq]
  rcases hd : f.disabled with _ | _ <;> by_cases hm : f.name ∈ p.functions <;> simp [hd, hm]

lemma product_matches_functions_iff (known : List UsbFunction) (p : AndroidUsbProduct) :
    product_matches_functions known p = true ↔ spec_profile_matches known p := by
  unfold product_matches_functions spec_profile_matches
  rw [List.all_eq_true]
  exact ⟨fun h f hf => (product_requirement_iff p f).mp (h f hf),
    fun h f hf => (product_requirement_iff p f).mpr (h f hf)⟩

lemma product_matches_functions_eq (known : List UsbFunction) (p : AndroidUsbProduct) :
    product_matches_functions known p = decide (spec_profile_matches known p) := by
  rcases h : decide (spec_profile_matches known p) with _ | _
  · rw [decide_eq_false_iff_not] at h
    rcases hq : product_matches_functions known p with _ | _
    · rfl
    · exact absurd ((product_matches_functions_iff known p).mp hq) h
  · rw [decide_eq_true_eq] at h
    exact (product_matches_functions_iff known p).mpr h

/-- C1: identity selection (`get_product_id`) walks the catalog in declared
order and returns the id of the first profile matching the spec's
enabled-equals-requirement predicate, falling back to the default id when no
profile matches or the catalog is empty or absent; on the catalog
[{0x1111, requires A}, {0x2222, requires B}] with fallback 0x0001 over known
functions A and B: enabled={A} gives 0x1111, enabled={B} gives 0x2222,
enabled={} gives 0x0001, enabled={A,B} gives 0x0001. -/
theorem C1_identity_selection :
    (∀ (known : List UsbFunction) (dev : AndroidDev),
        get_product_id known dev = spec_select known dev.products dev.product_id) ∧
    get_product_id [⟨"A", false⟩, ⟨"B", true⟩]
      ⟨some [⟨0x1111, ["A"]⟩, ⟨0x2222, ["B"]⟩], 0x0001⟩ = 0x1111 ∧
    get_product_id [⟨"A", true⟩, ⟨"B", false⟩]
      ⟨some [⟨0x1111, ["A"]⟩, ⟨0x2222, ["B"]⟩], 0x0001⟩ = 0x2222 ∧
    get_product_id [⟨"A", true⟩, ⟨"B", true⟩]
      ⟨some [⟨0x1111, ["A"]⟩, ⟨0x2222, ["B"]⟩], 0x0001⟩ = 0x0001 ∧
    get_product_id [⟨"A", false⟩, ⟨"B", false⟩]
      ⟨some [⟨0x1111, ["A"]⟩, ⟨0x2222, ["B"]⟩], 0x0001⟩ = 0x0001 := by
  refine ⟨fun known dev => ?_, by decide, by decide, by decide, by decide⟩
  unfold get_product_id spec_select
  rcases dev.products with _ | ps
  · rfl
  · simp only [product_matches_functions_eq]

lemma run_append (expected : List String) (tr1 tr2 : List Event) (s : GadgetState) :
    run expected s (tr1 ++ tr2) = run expected (run expected s tr1) tr2 := by
  induction tr1 generalizing s with
  | nil => rfl
  | cons e tr ih => simp [run, ih]

lemma register_count (expected : List String) (s : GadgetState) (f : AFunction) :
    (android_register_function expected s f).registered_function_count =
      s.registered_function_count + 1 := by
  unfold android_register_function
  by_cases h : s.config_attached ∧ s.registered_function_count + 1 = expected.length
  · rw [if_pos h]
  · rw [if_neg h]

lemma register_attached (expected : List String) (s : GadgetState) (f : AFunction) :
    (android_register_function expected s f).config_attached = s.config_attached := by
  unfold android_register_function
  by_cases h : s.config_attached ∧ s.registered_function_count + 1 = expected.length
  · rw [if_pos h]
  · rw [if_neg h]

lemma register_functions (expected : List String) (s : GadgetState) (f : AFunction) :
    (android_register_function expected s f).functions = s.functions ++ [f] := by
  unfold android_register_function
  by_cases h : s.config_attached ∧ s.registered_function_count + 1 = expected.length
  · rw [if_pos h]
  · rw [if_neg h]

lemma register_binds_pos (expected : List String) (s : GadgetState) (f : AFunction)
    (h1 : s.config_attached = true)
    (h2 : s.registered_function_count + 1 = expected.length) :
    (android_register_function expected s f).binds = s.binds + 1 := by
  unfold android_register_function
  rw [if_pos ⟨h1, h2⟩]

lemma register_binds_neg (expected : List String) (s : GadgetState) (f : AFunction)
    (h : ¬(s.config_attached = true ∧ s.registered_function_count + 1 = expected.length)) :
    (android_register_function expected s f).binds = s.binds := by
  unfold android_register_function
  rw [if_neg h]

lemma register_bound_neg (expected : List String) (s : GadgetState) (f : AFunction)
    (h : ¬(s.config_attached = true ∧ s.registered_function_count + 1 = expected.length)) :
    (android_register_function expected s f).bound = s.bound := by
  unfold android_register_function
  rw [if_neg h]

lemma bind_config_count (expected : List String) (s : GadgetState) :
    (android_bind_config expected s).registered_function_count =
      s.registered_function_count := by
  unfold android_bind_config
  by_cases h : s.registered_function_count = expected.length
  · rw [if_pos h]
  · rw [if_neg h]

lemma bind_config_attached (expected : List String) (s : GadgetState) :
    (android_bind_config expected s).config_attached = true := by
  unfold android_bind_config
  by_cases h : s.registered_function_count = expected.length
  · rw [if_pos h]
  · rw [if_neg h]

lemma bind_config_binds_pos (expected : List String) (s : GadgetState)
    (h : s.registered_function_count = expected.length) :
    (android_bind_config expected s).binds = s.binds + 1 := by
  unfold android_bind_config
  rw [if_pos h]

lemma bind_config_binds_neg (expected : List String) (s : GadgetState)
    (h : ¬s.registered_function_count = expected.length) :
    (android_bind_config expected s).binds = s.binds := by
  unfold android_bind_config
  rw [if_neg h]

lemma bind_config_bound_neg (expected : List String) (s : GadgetState)
    (h : ¬s.registered_function_count = expected.length) :
    (android_bind_config expected s).bound = s.bound := by
  unfold android_bind_config
  rw [if_neg h]

/-- Gate invariant: along a trace whose remaining attaches respect the
single-attach budget, `bind_functions` runs at most once. -/
lemma run_binds_le_one (expected : List String) :
    ∀ (tr : List Event) (s : GadgetState),
      s.binds ≤ 1 →
      (s.binds = 1 → s.config_attached = true ∧
        expected.length ≤ s.registered_function_count) →
      (s.config_attached = false → s.binds = 0) →
      (s.config_attached = true → attach_count tr = 0) →
      attach_count tr ≤ 1 →
      (run expected s tr).binds ≤ 1 := by
  intro tr
  induction tr with
  | nil => intro s h1 _ _ _ _; exact h1
  | cons e tr ih =>
    intro s h1 h2 h3 h4 h5
    rcases e with f | _
    · show (run expected (android_register_function expected s f) tr).binds ≤ 1
      have hcount := register_count expected s f
      have hatt := register_attached expected s f
      by_cases hg : s.config_attached = true ∧
          s.registered_function_count + 1 = expected.length
      · have hg2 := hg.2
        have hb0 : s.binds = 0 := by
          by_contra hne
          have hb1 : s.binds = 1 := by omega
          have hlen := (h2 hb1).2
          omega
        have hbinds : (android_register_function expected s f).binds = 1 := by
          rw [register_binds_pos expected s f hg.1 hg.2, hb0]
        apply ih
        · omega
        · intro _
          exact ⟨by rw [hatt, hg.1], by rw [hcount]; omega⟩
        · intro hc
          rw [hatt, hg.1] at hc
          exact Bool.noConfusion hc
        · intro hc
          rw [hatt] at hc
          exact h4 hc
        · exact h5
      · have hbinds : (android_register_function expected s f).binds = s.binds :=
          register_binds_neg expected s f hg
        apply ih
        · omega
        · intro hb
          rw [hbinds] at hb
          rcases h2 hb with ⟨hc, hn⟩
          exact ⟨by rw [hatt]; exact hc, by rw [hcount]; omega⟩
        · intro hc
          rw [hatt] at hc
          rw [hbinds]
          exact h3 hc
        · intro hc
          rw [hatt] at hc
          exact h4 hc
        · exact h5
    · show (run expected (android_bind_config expected s) tr).binds ≤ 1
      have ha : s.config_attached = false := by
        rcases hc : s.config_attached with _ | _
        · rfl
        · have h0 : attach_count (Event.attach :: tr) = 0 := h4 hc
          exact absurd h0 (by simp [attach_count])
      have hb0 : s.binds = 0 := h3 ha
      have h5' : attach_count tr + 1 ≤ 1 := h5
      have htr : attach_count tr = 0 := by omega
      have hcount := bind_config_count expected s
      have hatt := bind_config_attached expected s
      by_cases hg : s.registered_function_count = expected.length
      · have hbinds : (android_bind_config expected s).binds = 1 := by
          rw [bind_config_binds_pos expected s hg, hb0]
        apply ih
        · omega
        · intro _
          exact ⟨hatt, by rw [hcount]; omega⟩
        · intro hc
          rw [hatt] at hc
          exact Bool.noConfusion hc
        · intro _
          exact htr
        · omega
      · have hbinds : (android_bind_config expected s).binds = s.binds :=
          bind_config_binds_neg expected s hg
        apply ih
        · omega
        · intro hb
          rw [hbinds, hb0] at hb
          exact Nat.noConfusion hb
        · intro _
          rw [hbinds]
          exact hb0
        · intro _
          exact htr
        · omega

/-- C2: over every interleaving of register events with a single attach
event, the bind-into-configuration assembly runs at most once; moreover each
trigger performs the assembly exactly when its condition holds — a register
call reaching the expected count with the configuration attached, or the
attach event occurring with the count already complete. -/
theorem C2_bind_at_most_once :
    (∀ (expected : List String) (tr : List Event), attach_count tr ≤ 1 →
        (run expected init tr).binds ≤ 1) ∧
    (∀ (expected : List String) (s : GadgetState) (f : AFunction),
        s.config_attached = true →
        s.registered_function_count + 1 = expected.length →
        (android_register_function expected s f).binds = s.binds + 1) ∧
    (∀ (expected : List String) (s : GadgetState),
        s.registered_function_count = expected.length →
        (android_bind_config expected s).binds = s.binds + 1) := by
  refine ⟨fun expected tr h => ?_, fun expected s f hc hn => ?_, fun expected s hn => ?_⟩
  · apply run_binds_le_one
    · exact Nat.zero_le 1
    · intro h0
      exact Nat.noConfusion h0
    · intro _
      rfl
    · intro h0
      exact Bool.noConfusion h0
    · exact h
  · exact register_binds_pos expected s f hc hn
  · exact bind_config_binds_pos expected s hn

/-- Witness for C2 at concrete inputs: the trace register-attach-register
with two expected functions binds exactly within the bound, and each trigger
equation evaluates on a concrete state. -/
theorem C2_bind_at_most_once_witness :
    (run ["a", "b"] init
      [Event.register ⟨"a", 1⟩, Event.attach, Event.register ⟨"b", 2⟩]).binds ≤ 1 ∧
    (android_register_function ["a", "b"] ⟨[⟨"a", 1⟩], 1, true, 0, []⟩ ⟨"b", 2⟩).binds =
      0 + 1 ∧
    (android_bind_config ["a"] ⟨[⟨"a", 1⟩], 1, false, 0, []⟩).binds = 0 + 1 := by
  refine ⟨C2_bind_at_most_once.1 ["a", "b"] _ (by decide), ?_, ?_⟩
  · exact C2_bind_at_most_once.2.1 ["a", "b"] ⟨[⟨"a", 1⟩], 1, true, 0, []⟩ ⟨"b", 2⟩ rfl rfl
  · exact C2_bind_at_most_once.2.2 ["a"] ⟨[⟨"a", 1⟩], 1, false, 0, []⟩ rfl

/-- Once the count has overshot the expected length, no later event can fire
the gate: the count only grows and the gate tests exact equality. -/
lemma run_overshoot (expected : List String) :
    ∀ (tr : List Event) (s : GadgetState),
      expected.length < s.registered_function_count →
      (run expected s tr).binds = s.binds ∧ (run expected s tr).bound = s.bound := by
  intro tr
  induction tr with
  | nil => intro s _; exact ⟨rfl, rfl⟩
  | cons e tr ih =>
    intro s hover
    rcases e with f | _
    · show (run expected (android_register_function expected s f) tr).binds = s.binds ∧
        (run expected (android_register_function expected s f) tr).bound = s.bound
      have hg : ¬(s.config_attached = true ∧
          s.registered_function_count + 1 = expected.length) := by
        rintro ⟨_, h2⟩
        omega
      have h1 := ih (android_register_function expected s f)
        (by rw [register_count]; omega)
      rw [register_binds_neg expected s f hg, register_bound_neg expected s f hg] at h1
      exact h1
    · show (run expected (android_bind_config expected s) tr).binds = s.binds ∧
        (run expected (android_bind_config expected s) tr).bound = s.bound
      have hg : ¬s.registered_function_count = expected.length := by omega
      have h1 := ih (android_bind_config expected s)
        (by rw [bind_config_count]; omega)
      rw [bind_config_binds_neg expected s hg, bind_config_bound_neg expected s hg] at h1
      exact h1

/-- If `bind_functions` never ran, nothing was ever bound into the
configuration. -/
lemma run_bound_empty (expected : List String) :
    ∀ (tr : List Event) (s : GadgetState),
      (s.binds = 0 → s.bound = []) →
      (run expected s tr).binds = 0 → (run expected s tr).bound = [] := by
  intro tr
  induction tr with
  | nil => intro s h hb; exact h hb
  | cons e tr ih =>
    intro s h
    rcases e with f | _
    · show (run expected (android_register_function expected s f) tr).binds = 0 →
        (run expected (android_register_function expected s f) tr).bound = []
      apply ih
      intro hb
      by_cases hg : s.config_attached = true ∧
          s.registered_function_count + 1 = expected.length
      · rw [register_binds_pos expected s f hg.1 hg.2] at hb
        exact Nat.noConfusion hb
      · rw [register_binds_neg expected s f hg] at hb
        rw [register_bound_neg expected s f hg]
        exact h hb
    · show (run expected (android_bind_config expected s) tr).binds = 0 →
        (run expected (android_bind_config expected s) tr).bound = []
      apply ih
      intro hb
      by_cases hg : s.registered_function_count = expected.length
      · rw [bind_config_binds_pos expected s hg] at hb
        exact Nat.noConfusion hb
      · rw [bind_config_binds_neg expected s hg] at hb
        rw [bind_config_bound_neg expected s hg]
        exact h hb

/-- C9: the completeness gate tests exact equality of the registered count
against the expected count, so once the count exceeds the expected count
before the gate has fired (e.g. through a duplicate registration, which
unconditionally increments the count), `bind_functions` is never performed
for the rest of the session and no function is ever bound into the
configuration. -/
theorem C9_overshoot_disables_bind :
    ∀ (expected : List String) (tr1 tr2 : List Event),
      expected.length < (run expected init tr1).registered_function_count →
      (run expected init tr1).binds = 0 →
      (run expected init (tr1 ++ tr2)).binds = 0 ∧
      (run expected init (tr1 ++ tr2)).bound = [] := by
  intro expected tr1 tr2 hover hb
  rw [run_append]
  have h1 := run_overshoot expected tr2 (run expected init tr1) hover
  refine ⟨h1.1.trans hb, ?_⟩
  rw [h1.2]
  exact run_bound_empty expected tr1 init (fun _ => rfl) hb

/-- Witness for C9 at a concrete input: a duplicate registration overshoots
an expected count of one before attach, and the session ends with zero bind
invocations and nothing bound. -/
theorem C9_overshoot_disables_bind_witness :
    (run ["adb"] init
      ([Event.register ⟨"adb", 1⟩, Event.register ⟨"adb", 2⟩] ++
        [Event.attach, Event.register ⟨"x", 3⟩])).binds = 0 ∧
    (run ["adb"] init
      ([Event.register ⟨"adb", 1⟩, Event.register ⟨"adb", 2⟩] ++
        [Event.attach, Event.register ⟨"x", 3⟩])).bound = [] :=
  C9_overshoot_disables_bind ["adb"]
    [Event.register ⟨"adb", 1⟩, Event.register ⟨"adb", 2⟩]
    [Event.attach, Event.register ⟨"x", 3⟩] (by decide) (by decide)

/-- C3 counterexample: with one expected function, after attach and the
completing registration (completeness reached, configuration attached,
`bind_functions` ran once), a further register call leaves both the
invocation count and the bound set unchanged — no fresh bind attempt is
triggered, because the incremented count no longer equals the expected
count. -/
theorem C3_counterexample :
    (step ["f1"] (run ["f1"] init [Event.attach, Event.register ⟨"f1", 7⟩])
        (Event.register ⟨"f2", 8⟩)).binds =
      (run ["f1"] init [Event.attach, Event.register ⟨"f1", 7⟩]).binds ∧
    (step ["f1"] (run ["f1"] init [Event.attach, Event.register ⟨"f1", 7⟩])
        (Event.register ⟨"f2", 8⟩)).bound =
      (run ["f1"] init [Event.attach, Event.register ⟨"f1", 7⟩]).bound ∧
    (run ["f1"] init [Event.attach, Event.register ⟨"f1", 7⟩]).binds = 1 ∧
    (run ["f1"] init [Event.attach, Event.register ⟨"f1", 7⟩]).config_attached = true := by
  decide

/-- C3 (amended): in every state in which completeness has already been
reached and the configuration is attached, a further register call does not
trigger any bind attempt at all — the incremented count exceeds the expected
count, the equality gate fails, `bind_functions` is not re-invoked and the
bound set is unchanged (so in particular already-bound modules are not
rebuilt). -/
theorem C3_no_rebind_after_complete :
    ∀ (expected : List String) (s : GadgetState) (f : AFunction),
      s.config_attached = true →
      expected.length ≤ s.registered_function_count →
      (android_register_function expected s f).binds = s.binds ∧
      (android_register_function expected s f).bound = s.bound := by
  intro expected s f _ hn
  have hg : ¬(s.config_attached = true ∧
      s.registered_function_count + 1 = expected.length) := by
    rintro ⟨_, h2⟩
    omega
  exact ⟨register_binds_neg expected s f hg, register_bound_neg expected s f hg⟩

/-- Witness for C3's amended statement at a concrete complete-and-attached
state. -/
theorem C3_no_rebind_after_complete_witness :
    (android_register_function ["f1"] ⟨[⟨"f1", 7⟩], 1, true, 1, [7]⟩ ⟨"f2", 8⟩).binds = 1 ∧
    (android_register_function ["f1"] ⟨[⟨"f1", 7⟩], 1, true, 1, [7]⟩ ⟨"f2", 8⟩).bound = [7] :=
  C3_no_rebind_after_complete ["f1"] ⟨[⟨"f1", 7⟩], 1, true, 1, [7]⟩ ⟨"f2", 8⟩ rfl
    (by decide)

lemma get_function_append_of_mem (fs : List AFunction) (f : AFunction) (n : String)
    (h : ∃ g ∈ fs, g.name = n) :
    get_function (fs ++ [f]) n = get_function fs n := by
  induction fs with
  | nil => exact absurd h (by simp)
  | cons a fs ih =>
    unfold get_function at ih ⊢
    rcases h with ⟨g, hg, hn⟩
    by_cases ha : (a.name == n) = true
    · simp only [List.cons_append, List.find?_cons, ha]
    · have haf : (a.name == n) = false := by
        cases h2 : (a.name == n)
        · rfl
        · exact absurd h2 ha
      simp only [List.cons_append, List.find?_cons, haf]
      apply ih
      rcases List.mem_cons.mp hg with rfl | hg2
      · exact absurd (beq_iff_eq.mpr hn) ha
      · exact ⟨g, hg2, hn⟩

/-- C5 counterexample: registering a second module under an already-present
name succeeds silently — the duplicate IS inserted into the registry and the
count incremented; there is no duplicate-name detection of any kind in
`android_register_function`. -/
theorem C5_counterexample :
    (android_register_function ["adb"]
        (android_register_function ["adb"] init ⟨"adb", 1⟩) ⟨"adb", 2⟩).functions =
      [⟨"adb", 1⟩, ⟨"adb", 2⟩] ∧
    (android_register_function ["adb"]
        (android_register_function ["adb"] init ⟨"adb", 1⟩)
        ⟨"adb", 2⟩).registered_function_count = 2 := by
  decide

/-- C5 (amended): registration never fails and performs no duplicate check:
even when the module's name is already present, the module is appended to
the registry and the count incremented; lookup (`get_function`) still
resolves the name to the first-registered module, so the duplicate entry is
shadowed for lookup while still inflating the count. -/
theorem C5_duplicate_inserted :
    ∀ (expected : List String) (s : GadgetState) (f : AFunction),
      (∃ g ∈ s.functions, g.name = f.name) →
      (android_register_function expected s f).functions = s.functions ++ [f] ∧
      (android_register_function expected s f).registered_function_count =
        s.registered_function_count + 1 ∧
      get_function (android_register_function expected s f).functions f.name =
        get_function s.functions f.name := by
  intro expected s f h
  refine ⟨register_functions expected s f, register_count expected s f, ?_⟩
  rw [register_functions]
  exact get_function_append_of_mem s.functions f f.name h

/-- Witness for C5's amended statement: a concrete duplicate registration of
the name adb. -/
theorem C5_duplicate_inserted_witness :
    (android_register_function ["adb"] ⟨[⟨"adb", 1⟩], 1, false, 0, []⟩ ⟨"adb", 2⟩).functions =
      [⟨"adb", 1⟩] ++ [⟨"adb", 2⟩] ∧
    (android_register_function ["adb"] ⟨[⟨"adb", 1⟩], 1, false, 0, []⟩
        ⟨"adb", 2⟩).registered_function_count = 1 + 1 ∧
    get_function (android_register_function ["adb"] ⟨[⟨"adb", 1⟩], 1, false, 0, []⟩
        ⟨"adb", 2⟩).functions "adb" =
      get_function [⟨"adb", 1⟩] "adb" :=
  C5_duplicate_inserted ["adb"] ⟨[⟨"adb", 1⟩], 1, false, 0, []⟩ ⟨"adb", 2⟩
    ⟨⟨"adb", 1⟩, by decide, rfl⟩

lemma getLast?_getD_cons :
    ∀ (l : List Int) (a b : Int), ((a :: l).getLast?).getD b = (l.getLast?).getD a := by
  intro l
  induction l with
  | nil => intro a b; rfl
  | cons c l ih =>
    intro a b
    rw [List.getLast?_cons_cons, ih c b, ih c a]

lemma setup_loop_spec (ctrl : UsbCtrlrequest) :
    ∀ (cs : List Interface) (i : Nat) (ret : Int),
      (setup_loop ctrl cs i ret).1 =
        (match (handler_calls ctrl cs i).find? (fun x => decide (0 ≤ x.2.2)) with
         | some x => x.2.2
         | none => (((handler_calls ctrl cs i).map (fun x => x.2.2)).getLast?).getD ret) ∧
      (setup_loop ctrl cs i ret).2 = take_to_first_nonneg (handler_calls ctrl cs i) := by
  intro cs
  induction cs with
  | nil => intro i ret; exact ⟨rfl, rfl⟩
  | cons intf rest ih =>
    intro i ret
    rcases hs : intf.setup with _ | h
    · simp only [setup_loop, handler_calls, hs]
      exact ih (i + 1) ret
    · simp only [setup_loop, handler_calls, hs]
      by_cases hr : (0 : Int) ≤ h { ctrl with wIndex := i }
      · rw [if_pos hr]
        constructor
        · rw [List.find?_cons_of_pos _ (by simpa using hr)]
        · show _ = take_to_first_nonneg ((i, { ctrl with wIndex := i },
            h { ctrl with wIndex := i }) :: handler_calls ctrl rest (i + 1))
          unfold take_to_first_nonneg
          rw [if_pos hr]
      · rw [if_neg hr]
        have htail := ih (i + 1) (h { ctrl with wIndex := i })
        constructor
        · rw [List.find?_cons_of_neg _ (by simpa using hr)]
          rw [htail.1]
          rcases hfind : (handler_calls ctrl rest (i + 1)).find?
              (fun x => decide (0 ≤ x.2.2)) with _ | x
          · simp only [hfind, List.map_cons]
            rw [getLast?_getD_cons]
          · simp only [hfind]
        · show _ = take_to_first_nonneg ((i, { ctrl with wIndex := i },
            h { ctrl with wIndex := i }) :: handler_calls ctrl rest (i + 1))
          unfold take_to_first_nonneg
          rw [if_neg hr, ← htail.2]

/-- C6: for every bound configuration and request, dispatch consults the
handler-bearing interfaces in interface-index order (`handler_calls` lists
them, `take_to_first_nonneg` is the consulted prefix): the first handler
returning a non-negative result ends the search with that result and later
interfaces are not consulted; if every consulted handler returns a negative
result, the last handler's result is returned; if no interface has a
handler, `-EOPNOTSUPP` is returned. -/
theorem C6_setup_dispatch :
    ∀ (c : List Interface) (ctrl : UsbCtrlrequest),
      (android_setup_config c ctrl).1 =
        (match (handler_calls ctrl c 0).find? (fun x => decide (0 ≤ x.2.2)) with
         | some x => x.2.2
         | none => (((handler_calls ctrl c 0).map (fun x => x.2.2)).getLast?).getD
             (-EOPNOTSUPP)) ∧
      (android_setup_config c ctrl).2 = take_to_first_nonneg (handler_calls ctrl c 0) ∧
      (handler_calls ctrl c 0 = [] →
        (android_setup_config c ctrl).1 = -EOPNOTSUPP) := by
  intro c ctrl
  have h := setup_loop_spec ctrl c 0 (-EOPNOTSUPP)
  refine ⟨h.1, h.2, fun hnil => ?_⟩
  show (setup_loop ctrl c 0 (-EOPNOTSUPP)).1 = -EOPNOTSUPP
  rw [h.1, hnil]
  rfl

/-- Witness for C6 at a concrete input: a configuration with no interfaces
has no handler and dispatch returns the unsupported-request error. -/
theorem C6_setup_dispatch_witness :
    (android_setup_config [] ⟨0, 0, 0, 0, 0⟩).1 = -EOPNOTSUPP :=
  (C6_setup_dispatch [] ⟨0, 0, 0, 0, 0⟩).2.2 rfl

lemma handler_calls_request (ctrl : UsbCtrlrequest) :
    ∀ (cs : List Interface) (i : Nat) (x : Nat × UsbCtrlrequest × Int),
      x ∈ handler_calls ctrl cs i → x.2.1 = { ctrl with wIndex := x.1 } := by
  intro cs
  induction cs with
  | nil => intro i x hx; exact absurd hx (by simp [handler_calls])
  | cons intf rest ih =>
    intro i x hx
    rcases hs : intf.setup with _ | h
    · rw [handler_calls, hs] at hx
      exact ih (i + 1) x hx
    · rw [handler_calls, hs] at hx
      rcases List.mem_cons.mp hx with rfl | hx2
      · rfl
      · exact ih (i + 1) x hx2

lemma mem_take_to_first_nonneg :
    ∀ (l : List (Nat × UsbCtrlrequest × Int)) (x : Nat × UsbCtrlrequest × Int),
      x ∈ take_to_first_nonneg l → x ∈ l := by
  intro l
  induction l with
  | nil => intro x hx; exact hx
  | cons a l ih =>
    intro x hx
    unfold take_to_first_nonneg at hx
    by_cases ha : (0 : Int) ≤ a.2.2
    · rw [if_pos ha] at hx
      rcases List.mem_cons.mp hx with rfl | hx2
      · exact List.mem_cons_self _ _
      · exact absurd hx2 (by simp)
    · rw [if_neg ha] at hx
      rcases List.mem_cons.mp hx with rfl | hx2
      · exact List.mem_cons_self _ _
      · exact List.mem_cons_of_mem a (ih x hx2)

/-- C10 counterexample: with the caller's `wIndex` equal to 0 and a handler
on interface 0, the consulted handler receives a request identical to the
caller's original — in particular it observes the caller's original
`wIndex` value — refuting the claim that no handler ever observes it. -/
theorem C10_counterexample :
    (android_setup_config [⟨some (fun r => Int.ofNat r.wIndex)⟩]
        ⟨0, 0, 0, 0, 0⟩).2 = [(0, ⟨0, 0, 0, 0, 0⟩, 0)] ∧
    (⟨0, 0, 0, 0, 0⟩ : UsbCtrlrequest).wIndex = 0 := by
  exact ⟨rfl, rfl⟩

/-- C10 (amended): every consulted handler is invoked on a private copy of
the caller's request whose `wIndex` has been overwritten with the
interface's index — so a handler whose interface index differs from the
caller's `wIndex` never observes that value (the two coincide only when the
index equals the original `wIndex`), and the caller's request itself is
never modified (the loop writes only the copy `tmp_ctrl`; dispatch is a pure
function of the caller's request). -/
theorem C10_private_copy :
    ∀ (c : List Interface) (ctrl : UsbCtrlrequest) (x : Nat × UsbCtrlrequest × Int),
      x ∈ (android_setup_config c ctrl).2 →
      x.2.1 = { ctrl with wIndex := x.1 } ∧
      (x.1 ≠ ctrl.wIndex → x.2.1.wIndex ≠ ctrl.wIndex) := by
  intro c ctrl x hx
  have hlog := (setup_loop_spec ctrl c 0 (-EOPNOTSUPP)).2
  rw [android_setup_config, hlog] at hx
  have hmem := mem_take_to_first_nonneg _ x hx
  have h1 := handler_calls_request ctrl c 0 x hmem
  refine ⟨h1, fun hne => ?_⟩
  rw [h1]
  exact hne

/-- Witness for C10's amended statement: interface 1's handler, consulted on
a request whose original `wIndex` was 5, receives the copy with `wIndex` 1
and does not observe the value 5. -/
theorem C10_private_copy_witness :
    ((⟨0, 0, 0, 1, 0⟩ : UsbCtrlrequest) =
      { (⟨0, 0, 0, 5, 0⟩ : UsbCtrlrequest) with wIndex := 1 }) ∧
    ((1 : Nat) ≠ (⟨0, 0, 0, 5, 0⟩ : UsbCtrlrequest).wIndex →
      (⟨0, 0, 0, 1, 0⟩ : UsbCtrlrequest).wIndex ≠
        (⟨0, 0, 0, 5, 0⟩ : UsbCtrlrequest).wIndex) :=
  C10_private_copy [⟨none⟩, ⟨some (fun _ => 0)⟩] ⟨0, 0, 0, 5, 0⟩
    (1, ⟨0, 0, 0, 1, 0⟩, 0) (by decide)

/-- C7: when the requested state equals the function's current state the
call is a no-op — it completes normally with no flag, descriptor or cdev
field change and no reset signalled. -/
theorem C7_enable_noop :
    ∀ (st : EnableState) (fname : String) (enable : Bool) (f : UsbFunction),
      st.functions.find? (fun g => g.name == fname) = some f →
      f.disabled = (!enable) →
      android_enable_function st fname enable = some st := by
  intro st fname enable f hfind hdis
  unfold android_enable_function
  simp only [hfind]
  rw [if_neg (fun hc => hc hdis)]

/-- Witness for C7 at a concrete input: enabling the already-enabled adb
function changes nothing. -/
theorem C7_enable_noop_witness :
    android_enable_function ⟨[⟨"adb", false⟩], ⟨none, 1⟩, 1, none, 0⟩ "adb" true =
      some ⟨[⟨"adb", false⟩], ⟨none, 1⟩, 1, none, 0⟩ :=
  C7_enable_noop ⟨[⟨"adb", false⟩], ⟨none, 1⟩, 1, none, 0⟩ "adb" true
    ⟨"adb", false⟩ (by decide) rfl

/-- C4 counterexample: an actual disable edge on adb while `dev->cdev` is
absent completes and still invokes the forced-reconnect primitive
(`usb_composite_force_reset(dev->cdev)` is unconditional in the source) —
refuting the claim that the reconnect signal is skipped. -/
theorem C4_counterexample :
    (android_enable_function ⟨[⟨"adb", false⟩], ⟨none, 1⟩, 1, none, 0⟩
        "adb" false).map (fun s => s.resets) = some 1 ∧
    (⟨[⟨"adb", false⟩], ⟨none, 1⟩, 1, none, 0⟩ : EnableState).cdev = none ∧
    (⟨[⟨"adb", false⟩], ⟨none, 1⟩, 1, none, 0⟩ : EnableState).resets = 0 := by
  decide

/-- C4 (amended): on an actual edge with no attached framework handle
(`dev->cdev` absent), for any function other than rndis the new product id
is still written into the shared static descriptor and the cdev mirror
write is skipped, but the forced-reconnect primitive is invoked anyway,
passed the absent handle; for rndis the call instead dereferences the
absent handle at the unguarded class write and never completes. -/
theorem C4_enable_unbound :
    (∀ (st : EnableState) (fname : String) (enable : Bool) (f : UsbFunction),
      fname ≠ "rndis" →
      st.cdev = none →
      st.functions.find? (fun g => g.name == fname) = some f →
      f.disabled = enable →
      android_enable_function st fname enable = some
        { functions := usb_function_set_enabled st.functions fname enable,
          dev := st.dev,
          device_desc_idProduct := get_product_id (usb_function_set_enabled st.functions fname enable) st.dev % 65536,
          cdev := none,
          resets := st.resets + 1 }) ∧
    (∀ (st : EnableState) (enable : Bool) (f : UsbFunction),
      st.cdev = none →
      st.functions.find? (fun g => g.name == "rndis") = some f →
      f.disabled = enable →
      android_enable_function st "rndis" enable = none) := by
  constructor
  · intro st fname enable f hrn hc hfind hdis
    unfold android_enable_function
    simp only [hfind]
    have hcond : f.disabled ≠ (!enable) := by
      rw [hdis]
      cases enable <;> simp
    rw [if_pos hcond, if_neg hrn, hc]
    rfl
  · intro st enable f hc hfind hdis
    unfold android_enable_function
    simp only [hfind, hc]
    have hcond : f.disabled ≠ (!enable) := by
      rw [hdis]
      cases enable <;> simp
    rw [if_pos hcond]
    rw [if_pos trivial]

/-- Witness for C4's amended statement: a concrete disable edge on adb with
no cdev attached completes with the descriptor written and the reset
counted, while the same edge on rndis faults. -/
theorem C4_enable_unbound_witness :
    android_enable_function ⟨[⟨"adb", false⟩], ⟨none, 1⟩, 1, none, 0⟩ "adb" false =
      some ⟨[⟨"adb", true⟩], ⟨none, 1⟩, 1, none, 1⟩ ∧
    android_enable_function ⟨[⟨"rndis", false⟩], ⟨none, 1⟩, 1, none, 0⟩ "rndis" false =
      none :=
  ⟨C4_enable_unbound.1 ⟨[⟨"adb", false⟩], ⟨none, 1⟩, 1, none, 0⟩ "adb" false
      ⟨"adb", false⟩ (by decide) rfl (by decide) rfl,
    C4_enable_unbound.2 ⟨[⟨"rndis", false⟩], ⟨none, 1⟩, 1, none, 0⟩ false
      ⟨"rndis", false⟩ rfl (by decide) rfl⟩

lemma map_eq_self_of (l : List UsbFunction) (F : UsbFunction → UsbFunction)
    (h : ∀ g ∈ l, F g = g) : l.map F = l := by
  induction l with
  | nil => rfl
  | cons a l ih =>
    rw [List.map_cons, h a (List.mem_cons_self _ _),
      ih (fun g hg => h g (List.mem_cons_of_mem a hg))]

lemma find?_name_map (fs : List UsbFunction) (n : String) (F : UsbFunction → UsbFunction)
    (hF : ∀ g, (F g).name = g.name) :
    (fs.map F).find? (fun g => g.name == n) =
      (fs.find? (fun g => g.name == n)).map F := by
  induction fs with
  | nil => rfl
  | cons a fs ih =>
    rcases hb : (a.name == n) with _ | _
    · simp only [List.map_cons, List.find?_cons, hF a, hb]
      exact ih
    · simp only [List.map_cons, List.find?_cons, hF a, hb, Option.map_some']

lemma set_enabled_name (n : String) (e : Bool) :
    ∀ g : UsbFunction,
      ((if g.name == n then { g with disabled := !e } else g) : UsbFunction).name = g.name := by
  intro g
  by_cases h : (g.name == n) = true
  · rw [if_pos h]
  · rw [if_neg h]

lemma rndis_force_name (e : Bool) :
    ∀ g : UsbFunction,
      ((if rndis_conflicts g.name then { g with disabled := e } else g) : UsbFunction).name
        = g.name := by
  intro g
  by_cases h : rndis_conflicts g.name
  · rw [if_pos h]
  · rw [if_neg h]

lemma find?_set_enabled (fs : List UsbFunction) (n : String) (e : Bool) (f : UsbFunction)
    (hfind : fs.find? (fun g => g.name == n) = some f) :
    (usb_function_set_enabled fs n e).find? (fun g => g.name == n) =
      some { f with disabled := !e } := by
  have hp0 := List.find?_some hfind
  have hp : (f.name == n) = true := hp0
  unfold usb_function_set_enabled
  rw [find?_name_map fs n _ (set_enabled_name n e), hfind, Option.map_some']
  exact congrArg some (if_pos hp)

lemma find?_rndis_force (fs : List UsbFunction) (n : String) (e : Bool) (f : UsbFunction)
    (hfind : fs.find? (fun g => g.name == n) = some f)
    (hnc : ¬rndis_conflicts f.name) :
    (rndis_force fs e).find? (fun g => g.name == n) = some f := by
  unfold rndis_force
  rw [find?_name_map fs n _ (rndis_force_name e), hfind, Option.map_some']
  exact congrArg some (if_neg hnc)

lemma toggle_functions_plain (fs : List UsbFunction) (n : String)
    (h : ∀ g ∈ fs, g.name = n → g.disabled = false) :
    usb_function_set_enabled (usb_function_set_enabled fs n false) n true = fs := by
  unfold usb_function_set_enabled
  rw [List.map_map]
  apply map_eq_self_of
  intro g hg
  have hgd := h g hg
  obtain ⟨gn, gd⟩ := g
  by_cases hn : (gn == n) = true
  · have hgd2 : gd = false := hgd (beq_iff_eq.mp hn)
    subst hgd2
    simp [Function.comp, hn]
  · have hn2 : (gn == n) = false := by
      cases hh : (gn == n)
      · rfl
      · exact absurd hh hn
    simp [Function.comp, hn2]

lemma toggle_functions_rndis (fs : List UsbFunction)
    (hr : ∀ g ∈ fs, g.name = "rndis" → g.disabled = false)
    (hcf : ∀ g ∈ fs, rndis_conflicts g.name → g.disabled = true) :
    rndis_force (usb_function_set_enabled
        (rndis_force (usb_function_set_enabled fs "rndis" false) false) "rndis" true)
      true = fs := by
  unfold rndis_force usb_function_set_enabled
  rw [List.map_map, List.map_map, List.map_map]
  apply map_eq_self_of
  intro g hg
  have hgr := hr g hg
  have hgc := hcf g hg
  obtain ⟨gn, gd⟩ := g
  by_cases hn : (gn == "rndis") = true
  · have hnc : ¬rndis_conflicts gn := by
      rw [beq_iff_eq.mp hn]
      decide
    have hgd2 : gd = false := hgr (beq_iff_eq.mp hn)
    subst hgd2
    simp [Function.comp, hn, hnc]
  · have hn2 : (gn == "rndis") = false := by
      cases hh : (gn == "rndis")
      · rfl
      · exact absurd hh hn
    by_cases hc : rndis_conflicts gn
    · have hgd2 : gd = true := hgc hc
      subst hgd2
      simp [Function.comp, hn2, hc]
    · simp [Function.comp, hn2, hc]
lemma option_bind_some (a : EnableState) (k : EnableState → Option EnableState) :
    (some a).bind k = k a := rfl

lemma enable_edge_plain (st : EnableState) (fname : String) (enable : Bool)
    (f : UsbFunction)
    (hrn : fname ≠ "rndis")
    (hfind : st.functions.find? (fun g => g.name == fname) = some f)
    (hdis : f.disabled = enable) :
    android_enable_function st fname enable = some
      { functions := usb_function_set_enabled st.functions fname enable,
        dev := st.dev,
        device_desc_idProduct := get_product_id (usb_function_set_enabled st.functions fname enable) st.dev % 65536,
        cdev := st.cdev.map (fun c => { c with idProduct := get_product_id (usb_function_set_enabled st.functions fname enable) st.dev % 65536 }),
        resets := st.resets + 1 } := by
  unfold android_enable_function
  simp only [hfind]
  have hcond : f.disabled ≠ (!enable) := by
    rw [hdis]
    cases enable <;> simp
  rw [if_pos hcond, if_neg hrn]

lemma enable_edge_rndis (st : EnableState) (enable : Bool) (f : UsbFunction)
    (c : CdevDesc)
    (hfind : st.functions.find? (fun g => g.name == "rndis") = some f)
    (hdis : f.disabled = enable)
    (hc : st.cdev = some c) :
    android_enable_function st "rndis" enable = some
      { functions := rndis_force (usb_function_set_enabled st.functions "rndis" enable) enable,
        dev := st.dev,
        device_desc_idProduct := get_product_id (rndis_force (usb_function_set_enabled st.functions "rndis" enable) enable) st.dev % 65536,
        cdev := some { { c with bDeviceClass := if enable then USB_CLASS_WIRELESS_CONTROLLER else USB_CLASS_PER_INTERFACE } with idProduct := get_product_id (rndis_force (usb_function_set_enabled st.functions "rndis" enable) enable) st.dev % 65536 },
        resets := st.resets + 1 } := by
  unfold android_enable_function
  simp only [hfind, hc]
  have hcond : f.disabled ≠ (!enable) := by
    rw [hdis]
    cases enable <;> simp
  rw [if_pos hcond]
  rw [if_pos trivial]

lemma toggle_restores_plain (st : EnableState) (fname : String) (f : UsbFunction)
    (hrn : fname ≠ "rndis")
    (hfind : st.functions.find? (fun g => g.name == fname) = some f)
    (hall : ∀ g ∈ st.functions, g.name = fname → g.disabled = false)
    (hdesc : st.device_desc_idProduct = get_product_id st.functions st.dev % 65536)
    (hcdev : ∀ c, st.cdev = some c →
      c.idProduct = get_product_id st.functions st.dev % 65536) :
    ((android_enable_function st fname false).bind fun s1 =>
        android_enable_function s1 fname true).map (fun s2 => s2.functions)
      = some st.functions ∧
    ((android_enable_function st fname false).bind fun s1 =>
        android_enable_function s1 fname true).map (fun s2 => s2.device_desc_idProduct)
      = some st.device_desc_idProduct ∧
    ((android_enable_function st fname false).bind fun s1 =>
        android_enable_function s1 fname true).map (fun s2 => s2.cdev)
      = some st.cdev := by
  have hp0 := List.find?_some hfind
  have hp : (f.name == fname) = true := hp0
  have hmem : f ∈ st.functions := List.mem_of_find?_eq_some hfind
  have hfd : f.disabled = false := hall f hmem (beq_iff_eq.mp hp)
  have e1 := enable_edge_plain st fname false f hrn hfind hfd
  have hfind1 : (usb_function_set_enabled st.functions fname false).find?
      (fun g => g.name == fname) = some { f with disabled := true } :=
    find?_set_enabled st.functions fname false f hfind
  have e2 := enable_edge_plain
    { functions := usb_function_set_enabled st.functions fname false,
      dev := st.dev,
      device_desc_idProduct := get_product_id (usb_function_set_enabled st.functions fname false) st.dev % 65536,
      cdev := st.cdev.map (fun c => { c with idProduct := get_product_id (usb_function_set_enabled st.functions fname false) st.dev % 65536 }),
      resets := st.resets + 1 }
    fname true { f with disabled := true } hrn hfind1 rfl
  have htog : usb_function_set_enabled (usb_function_set_enabled st.functions fname false)
      fname true = st.functions := toggle_functions_plain st.functions fname hall
  refine ⟨?_, ?_, ?_⟩
  · simp only [e1, option_bind_some, e2, Option.map_some']
    rw [htog]
  · simp only [e1, option_bind_some, e2, Option.map_some']
    rw [htog, hdesc]
  · simp only [e1, option_bind_some, e2, Option.map_some', htog]
    rcases hcd : st.cdev with _ | c
    · rfl
    · obtain ⟨ci, cc⟩ := c
      have hci : ci = get_product_id st.functions st.dev % 65536 := hcdev ⟨ci, cc⟩ hcd
      simp only [Option.map_some']
      rw [hci]

lemma toggle_restores_rndis (st : EnableState) (f : UsbFunction) (c : CdevDesc)
    (hfind : st.functions.find? (fun g => g.name == "rndis") = some f)
    (hall : ∀ g ∈ st.functions, g.name = "rndis" → g.disabled = false)
    (hconf : ∀ g ∈ st.functions, rndis_conflicts g.name → g.disabled = true)
    (hdesc : st.device_desc_idProduct = get_product_id st.functions st.dev % 65536)
    (hc : st.cdev = some c)
    (hci : c.idProduct = get_product_id st.functions st.dev % 65536)
    (hcc : c.bDeviceClass = USB_CLASS_WIRELESS_CONTROLLER) :
    ((android_enable_function st "rndis" false).bind fun s1 =>
        android_enable_function s1 "rndis" true).map (fun s2 => s2.functions)
      = some st.functions ∧
    ((android_enable_function st "rndis" false).bind fun s1 =>
        android_enable_function s1 "rndis" true).map (fun s2 => s2.device_desc_idProduct)
      = some st.device_desc_idProduct ∧
    ((android_enable_function st "rndis" false).bind fun s1 =>
        android_enable_function s1 "rndis" true).map (fun s2 => s2.cdev)
      = some st.cdev := by
  have hp0 := List.find?_some hfind
  have hp : (f.name == "rndis") = true := hp0
  have hmem : f ∈ st.functions := List.mem_of_find?_eq_some hfind
  have hfd : f.disabled = false := hall f hmem (beq_iff_eq.mp hp)
  have hnc : ¬rndis_conflicts f.name := by
    rw [beq_iff_eq.mp hp]
    decide
  have e1 := enable_edge_rndis st false f c hfind hfd hc
  have hfind1 : (rndis_force (usb_function_set_enabled st.functions "rndis" false)
      false).find? (fun g => g.name == "rndis") = some { f with disabled := true } :=
    find?_rndis_force _ "rndis" false { f with disabled := true }
      (find?_set_enabled st.functions "rndis" false f hfind) hnc
  have e2 := enable_edge_rndis
    { functions := rndis_force (usb_function_set_enabled st.functions "rndis" false) false,
      dev := st.dev,
      device_desc_idProduct := get_product_id (rndis_force (usb_function_set_enabled st.functions "rndis" false) false) st.dev % 65536,
      cdev := some { { c with bDeviceClass := if false then USB_CLASS_WIRELESS_CONTROLLER else USB_CLASS_PER_INTERFACE } with idProduct := get_product_id (rndis_force (usb_function_set_enabled st.functions "rndis" false) false) st.dev % 65536 },
      resets := st.resets + 1 }
    true { f with disabled := true }
    { { c with bDeviceClass := if false then USB_CLASS_WIRELESS_CONTROLLER else USB_CLASS_PER_INTERFACE } with idProduct := get_product_id (rndis_force (usb_function_set_enabled st.functions "rndis" false) false) st.dev % 65536 }
    hfind1 rfl rfl
  have htog : rndis_force (usb_function_set_enabled
      (rndis_force (usb_function_set_enabled st.functions "rndis" false) false)
        "rndis" true) true = st.functions :=
    toggle_functions_rndis st.functions hall hconf
  refine ⟨?_, ?_, ?_⟩
  · simp only [e1, option_bind_some, e2, Option.map_some']
    rw [htog]
  · simp only [e1, option_bind_some, e2, Option.map_some']
    rw [htog, hdesc]
  · simp only [e1, option_bind_some, e2, Option.map_some', htog]
    rw [hc]
    obtain ⟨ci, cc⟩ := c
    have hci2 : ci = get_product_id st.functions st.dev % 65536 := hci
    have hcc2 : cc = USB_CLASS_WIRELESS_CONTROLLER := hcc
    rw [hci2, hcc2, if_pos trivial]

/-- C8: toggling a currently-enabled function disabled then enabled restores
the product id and the device class provided the descriptor was consistent
with the enabled set beforehand; when the function is rndis — the one
carrying conflict side effects — restoration additionally requires that the
framework handle is attached (otherwise each edge faults at the source's
unguarded class write), that the conflicting functions (usb_mass_storage,
mtp, adb) were already disabled, and that the device class already held the
rndis-enabled value. Stated for any function other than rndis, and for
rndis. -/
theorem C8_toggle_restores :
    (∀ (st : EnableState) (fname : String) (f : UsbFunction),
      fname ≠ "rndis" →
      st.functions.find? (fun g => g.name == fname) = some f →
      (∀ g ∈ st.functions, g.name = fname → g.disabled = false) →
      st.device_desc_idProduct = get_product_id st.functions st.dev % 65536 →
      (∀ c, st.cdev = some c →
        c.idProduct = get_product_id st.functions st.dev % 65536) →
      ((android_enable_function st fname false).bind fun s1 =>
          android_enable_function s1 fname true).map (fun s2 => s2.functions)
        = some st.functions ∧
      ((android_enable_function st fname false).bind fun s1 =>
          android_enable_function s1 fname true).map (fun s2 => s2.device_desc_idProduct)
        = some st.device_desc_idProduct ∧
      ((android_enable_function st fname false).bind fun s1 =>
          android_enable_function s1 fname true).map (fun s2 => s2.cdev)
        = some st.cdev) ∧
    (∀ (st : EnableState) (f : UsbFunction) (c : CdevDesc),
      st.functions.find? (fun g => g.name == "rndis") = some f →
      (∀ g ∈ st.functions, g.name = "rndis" → g.disabled = false) →
      (∀ g ∈ st.functions, rndis_conflicts g.name → g.disabled = true) →
      st.device_desc_idProduct = get_product_id st.functions st.dev % 65536 →
      st.cdev = some c →
      c.idProduct = get_product_id st.functions st.dev % 65536 →
      c.bDeviceClass = USB_CLASS_WIRELESS_CONTROLLER →
      ((android_enable_function st "rndis" false).bind fun s1 =>
          android_enable_function s1 "rndis" true).map (fun s2 => s2.functions)
        = some st.functions ∧
      ((android_enable_function st "rndis" false).bind fun s1 =>
          android_enable_function s1 "rndis" true).map (fun s2 => s2.device_desc_idProduct)
        = some st.device_desc_idProduct ∧
      ((android_enable_function st "rndis" false).bind fun s1 =>
          android_enable_function s1 "rndis" true).map (fun s2 => s2.cdev)
        = some st.cdev) :=
  ⟨fun st fname f hrn hfind hall hdesc hcdev =>
      toggle_restores_plain st fname f hrn hfind hall hdesc hcdev,
    fun st f c hfind hall hconf hdesc hc hci hcc =>
      toggle_restores_rndis st f c hfind hall hconf hdesc hc hci hcc⟩

/-- C8 counterexample: rndis is enabled, usb_mass_storage is also enabled,
the framework handle is attached and the descriptor is consistent (first
catalog profile, id 0x1111, class per-interface) — after toggling rndis off
and on, usb_mass_storage has been force-disabled, the product id has moved
to 0x2222 and the device class to wireless-controller: neither the product
id nor the device class is restored, refuting the claim for
conflict-carrying functions over arbitrary starting states. -/
theorem C8_counterexample :
    ((android_enable_function
        ⟨[⟨"rndis", false⟩, ⟨"usb_mass_storage", false⟩],
          ⟨some [⟨0x1111, ["rndis", "usb_mass_storage"]⟩, ⟨0x2222, ["rndis"]⟩], 0x0001⟩,
          0x1111, some ⟨0x1111, 0x00⟩, 0⟩ "rndis" false).bind fun s1 =>
        android_enable_function s1 "rndis" true).map (fun s2 => s2.device_desc_idProduct)
      ≠ some 0x1111 ∧
    ((android_enable_function
        ⟨[⟨"rndis", false⟩, ⟨"usb_mass_storage", false⟩],
          ⟨some [⟨0x1111, ["rndis", "usb_mass_storage"]⟩, ⟨0x2222, ["rndis"]⟩], 0x0001⟩,
          0x1111, some ⟨0x1111, 0x00⟩, 0⟩ "rndis" false).bind fun s1 =>
        android_enable_function s1 "rndis" true).map (fun s2 => s2.cdev)
      ≠ some (some ⟨0x1111, 0x00⟩) ∧
    ((android_enable_function
        ⟨[⟨"rndis", false⟩, ⟨"usb_mass_storage", false⟩],
          ⟨some [⟨0x1111, ["rndis", "usb_mass_storage"]⟩, ⟨0x2222, ["rndis"]⟩], 0x0001⟩,
          0x1111, some ⟨0x1111, 0x00⟩, 0⟩ "rndis" false).bind fun s1 =>
        android_enable_function s1 "rndis" true).map (fun s2 => s2.device_desc_idProduct)
      = some 0x2222 := by
  decide

/-- Witness for C8's amended statement: toggling adb (no conflict side
effects) from a consistent state restores functions, product id and cdev;
and toggling rndis from a consistent attached state with the conflicting
functions already disabled and the class already wireless-controller
restores them too. -/
theorem C8_toggle_restores_witness :
    (((android_enable_function
        ⟨[⟨"adb", false⟩], ⟨some [⟨0x2222, ["adb"]⟩], 0x0001⟩, 0x2222,
          some ⟨0x2222, 0x00⟩, 0⟩ "adb" false).bind fun s1 =>
        android_enable_function s1 "adb" true).map (fun s2 => s2.functions)
      = some [⟨"adb", false⟩] ∧
      ((android_enable_function
        ⟨[⟨"adb", false⟩], ⟨some [⟨0x2222, ["adb"]⟩], 0x0001⟩, 0x2222,
          some ⟨0x2222, 0x00⟩, 0⟩ "adb" false).bind fun s1 =>
        android_enable_function s1 "adb" true).map (fun s2 => s2.device_desc_idProduct)
      = some 0x2222 ∧
      ((android_enable_function
        ⟨[⟨"adb", false⟩], ⟨some [⟨0x2222, ["adb"]⟩], 0x0001⟩, 0x2222,
          some ⟨0x2222, 0x00⟩, 0⟩ "adb" false).bind fun s1 =>
        android_enable_function s1 "adb" true).map (fun s2 => s2.cdev)
      = some (some ⟨0x2222, 0x00⟩)) ∧
    (((android_enable_function
        ⟨[⟨"rndis", false⟩, ⟨"usb_mass_storage", true⟩],
          ⟨some [⟨0x2222, ["rndis"]⟩], 0x0001⟩, 0x2222,
          some ⟨0x2222, 0xe0⟩, 0⟩ "rndis" false).bind fun s1 =>
        android_enable_function s1 "rndis" true).map (fun s2 => s2.functions)
      = some [⟨"rndis", false⟩, ⟨"usb_mass_storage", true⟩] ∧
      ((android_enable_function
        ⟨[⟨"rndis", false⟩, ⟨"usb_mass_storage", true⟩],
          ⟨some [⟨0x2222, ["rndis"]⟩], 0x0001⟩, 0x2222,
          some ⟨0x2222, 0xe0⟩, 0⟩ "rndis" false).bind fun s1 =>
        android_enable_function s1 "rndis" true).map (fun s2 => s2.device_desc_idProduct)
      = some 0x2222 ∧
      ((android_enable_function
        ⟨[⟨"rndis", false⟩, ⟨"usb_mass_storage", true⟩],
          ⟨some [⟨0x2222, ["rndis"]⟩], 0x0001⟩, 0x2222,
          some ⟨0x2222, 0xe0⟩, 0⟩ "rndis" false).bind fun s1 =>
        android_enable_function s1 "rndis" true).map (fun s2 => s2.cdev)
      = some (some ⟨0x2222, 0xe0⟩)) :=
  ⟨C8_toggle_restores.1
      ⟨[⟨"adb", false⟩], ⟨some [⟨0x2222, ["adb"]⟩], 0x0001⟩, 0x2222,
        some ⟨0x2222, 0x00⟩, 0⟩ "adb" ⟨"adb", false⟩ (by decide) (by decide) (by decide)
      (by decide) (fun c hc => by cases hc; decide),
    C8_toggle_restores.2
      ⟨[⟨"rndis", false⟩, ⟨"usb_mass_storage", true⟩],
        ⟨some [⟨0x2222, ["rndis"]⟩], 0x0001⟩, 0x2222, some ⟨0x2222, 0xe0⟩, 0⟩
      ⟨"rndis", false⟩ ⟨0x2222, 0xe0⟩ (by decide) (by decide) (by decide) (by decide)
      rfl (by decide) rfl⟩

end AndroidGadget

